import Mathlib

/-!
Verification of the document-stamping / re-signing core of the
`asy-backend-core` repository against its natural-language specification.

The definitions below are a shallow embedding of the Python source:

* `documents/services/sign_document.py` — class `SignatureAgent`
  (percentage layout calculator, artifact decoders, department-list
  renderer, PDF re-encoder, signing orchestrator);
* `documents/api/views.py` — `SignatureViewSet.create`
  (pristine-backup / version-replacement logic and the sibling version
  bump).

Python `float` arithmetic is embedded as `ℚ`, Python `int` as `ℤ`/`ℕ`,
byte strings as `List ℕ`, and attachment file contents as abstract values.
External library calls (PIL, pdf2image, reportlab, the Arabic reshaper,
glyph measurement) are taken as parameters of the embedded functions,
except where a concrete fact about them is load-bearing and certain
(e.g. `PIL.Image.open` of an empty byte string always raises); those
places carry an explanatory doc comment.  All definitions are executable
so concrete runs of the embedded code reduce inside the kernel.
-/

namespace ASY

/-! ### Percentage layout calculator
`SignatureAgent._validate_percentage`, `_calculate_percentage_position`
and `_calculate_percentage_center_position`
(`documents/services/sign_document.py`, lines 76–183). -/

/-- Model of Python `int(x)` applied to a float: truncation toward zero. -/
def pyInt (q : ℚ) : ℤ :=
  if 0 ≤ q then ⌊q⌋ else ⌈q⌉

/-- `SignatureAgent._validate_percentage`: accepts a number in `[0, 1]`,
raises `ValueError` otherwise.  (The `isinstance` check has no Lean
counterpart because the argument is typed `ℚ`.) -/
def validate_percentage (value : ℚ) : Except String ℚ :=
  if value < 0 ∨ value > 1 then
    Except.error "percentage must be between 0.0 and 1.0"
  else
    Except.ok value

/-- `SignatureAgent._calculate_percentage_position`.  The two padded
branches of the Python source (`align_right or align_bottom` vs. not)
contain the identical clamp `max(min_position, min(position, max_position))`
with `min_position = padding_pixels` and
`max_position = document_dimension - element_dimension - padding_pixels`,
so the clamp is written once here; the unpadded branches differ and are
kept separate.  The final `int(position)` is `pyInt`. -/
def calculate_percentage_position (document_dimension element_dimension : ℕ)
    (percentage : ℚ) (padding_percentage : Option ℚ)
    (align_right align_bottom : Bool) : Except String ℤ :=
  match validate_percentage percentage with
  | Except.error e => Except.error e
  | Except.ok pct =>
    let D : ℚ := document_dimension
    let E : ℚ := element_dimension
    let position : ℚ := if align_right || align_bottom then D * pct - E else D * pct
    match padding_percentage with
    | some pp =>
      match validate_percentage pp with
      | Except.error e => Except.error e
      | Except.ok pad =>
        let padding_pixels := D * pad
        let min_position := padding_pixels
        let max_position := D - E - padding_pixels
        Except.ok (pyInt (max min_position (min position max_position)))
    | none =>
      if align_right || align_bottom then
        Except.ok (pyInt (max 0 position))
      else
        Except.ok (pyInt (max 0 (min position (D - E))))

/-- `SignatureAgent._calculate_percentage_center_position`: the element's
midpoint is placed at the percentage, then the same clamps are applied. -/
def calculate_percentage_center_position (document_dimension element_dimension : ℕ)
    (percentage : ℚ) (padding_percentage : Option ℚ) : Except String ℤ :=
  match validate_percentage percentage with
  | Except.error e => Except.error e
  | Except.ok pct =>
    let D : ℚ := document_dimension
    let E : ℚ := element_dimension
    let position : ℚ := D * pct - E / 2
    match padding_percentage with
    | some pp =>
      match validate_percentage pp with
      | Except.error e => Except.error e
      | Except.ok pad =>
        let padding_pixels := D * pad
        Except.ok (pyInt (max padding_pixels (min position (D - E - padding_pixels))))
    | none =>
      Except.ok (pyInt (max 0 (min position (D - E))))

/-! ### File-name classification
`SignatureAgent._get_file_extension` / `_is_pdf` / `_is_image`
(sign_document.py lines 565–575) and the extension checks of
`SignatureViewSet.create` (views.py lines 375–385). -/

/-- Model of `os.path.splitext(name)[1].lower()`, equivalently
`Path(name).suffix.lower()`: the lowercased extension of the file name,
`""` when there is none; leading dots of the base name do not start an
extension. -/
def extLower (name : String) : String :=
  let cs := name.data
  let lead := cs.takeWhile (fun c => c = '.')
  let rest := cs.drop lead.length
  let revAfter := rest.reverse.takeWhile (fun c => c ≠ '.')
  if revAfter.length = rest.length then ""
  else String.mk (('.' :: revAfter.reverse).map Char.toLower)

/-- `SignatureAgent.IMAGE_EXTENSIONS`, also the literal list
`['.png', '.jpg', '.jpeg']` in `SignatureViewSet.create`. -/
def IMAGE_EXTENSIONS : List String := [".png", ".jpg", ".jpeg"]

/-- `SignatureAgent._is_pdf` (and the PDF branch choice of the
orchestrator). -/
def is_pdf_file (name : String) : Bool := extLower name == ".pdf"

/-- `SignatureAgent._is_image`, also the target-attachment check
`os.path.splitext(file.name)[1].lower() in ['.png', '.jpg', '.jpeg']` in
`SignatureViewSet.create`. -/
def is_image_file (name : String) : Bool := IMAGE_EXTENSIONS.contains (extLower name)

/-- The sibling filter of `SignatureViewSet.create`: the case-insensitive
regex `\.(png|jpg|jpeg)$` applied to the attachment's file name. -/
def iregexImage (name : String) : Bool :=
  let low := name.data.map Char.toLower
  IMAGE_EXTENSIONS.any (fun e => e.data.isSuffixOf low)

/-! ### Artifact decoders
`SignatureAgent._decode_signature` and `_decode_comments`
(sign_document.py lines 325–368), together with models of
`base64.b64decode` and `PIL.Image.open`. -/

/-- The characters of the `'base64,'` data-URL marker. -/
def base64Marker : List Char := 'b' :: 'a' :: 's' :: 'e' :: '6' :: '4' :: [',']

/-- Splitter on the `'base64,'` marker, mirroring Python
`str.split('base64,')`: non-overlapping, leftmost occurrences.
Fuel-indexed structural recursion so that the definition reduces inside
the kernel; the fuel is the length of the remaining character list, which
suffices because every step consumes at least one character. -/
def splitOnMarkerAux : ℕ → List Char → List Char → List (List Char)
  | _, acc, [] => [acc.reverse]
  | 0, acc, cs => [acc.reverse ++ cs]
  | fuel + 1, acc, c :: rest =>
    if base64Marker.isPrefixOf (c :: rest) then
      acc.reverse :: splitOnMarkerAux fuel [] (List.drop 6 rest)
    else
      splitOnMarkerAux fuel (c :: acc) rest

/-- Python `s.split('base64,')`. -/
def splitOnMarker (s : String) : List (List Char) :=
  splitOnMarkerAux s.data.length [] s.data

/-- Python `'base64,' in s`. -/
def hasBase64Marker (s : String) : Bool :=
  (splitOnMarker s).length ≥ 2

/-- The `base64_str` computed by both decoders: `s.split('base64,')[1]`
when the marker is present (the guarded branch), the whole string
otherwise. -/
def stripBase64DataUrl (s : String) : String :=
  if hasBase64Marker s then String.mk ((splitOnMarker s).getD 1 []) else s

/-- Python `str.strip()` on a character list. -/
def pyStripChars (cs : List Char) : List Char :=
  ((cs.dropWhile Char.isWhitespace).reverse.dropWhile Char.isWhitespace).reverse

/-- Python `str.strip()`. -/
def pyStrip (s : String) : String :=
  String.mk (pyStripChars s.data)

/-- The base64 alphabet value of a character (RFC 4648); `none` for
characters outside the alphabet. -/
def b64CharVal (c : Char) : Option ℕ :=
  if 'A' ≤ c ∧ c ≤ 'Z' then some (c.toNat - 65)
  else if 'a' ≤ c ∧ c ≤ 'z' then some (c.toNat - 71)
  else if '0' ≤ c ∧ c ≤ '9' then some (c.toNat + 4)
  else if c = '+' then some 62
  else if c = '/' then some 63
  else none

/-- Decode a list of 6-bit groups into bytes; a final partial group of two
or three values yields one or two bytes, as with stripped base64 padding. -/
def b64Quads : List ℕ → List ℕ
  | a :: b :: c :: d :: rest =>
    (a * 4 + b / 16) :: ((b % 16) * 16 + c / 4) :: ((c % 4) * 64 + d) :: b64Quads rest
  | [a, b] => [a * 4 + b / 16]
  | [a, b, c] => [a * 4 + b / 16, (b % 16) * 16 + c / 4]
  | _ => []

/-- Model of Python `base64.b64decode` in its default lenient mode
(`validate=False`): characters outside the base64 alphabet (whitespace,
padding, stray punctuation) are discarded before decoding, and a leftover
of exactly one 6-bit group raises `binascii.Error`.  The theorems below
only rely on `b64decode "" = ok []` and on totality. -/
def b64decode (s : String) : Except String (List ℕ) :=
  let vals := s.data.filterMap b64CharVal
  if vals.length % 4 = 1 then Except.error "Invalid base64-encoded string"
  else Except.ok (b64Quads vals)

/-- Model of `PIL.Image.open` on an in-memory byte string (followed by
`convert('RGBA')`).  PIL identifies the format from the leading magic
bytes; an empty byte string, or one matching no registered format, raises
`UnidentifiedImageError("cannot identify image file ...")`.  The model
accepts the PNG and JPEG magic numbers (the formats this engine feeds it)
and keeps the raw bytes as the opaque decoded surface; the theorems only
rely on the failure for the empty byte string. -/
def imageOpen (bs : List ℕ) : Except String (List ℕ) :=
  match bs with
  | 137 :: 80 :: 78 :: 71 :: _ => Except.ok bs
  | 255 :: 216 :: _ => Except.ok bs
  | _ => Except.error "cannot identify image file"

/-- `SignatureAgent._decode_signature` (sign_document.py lines 325–343).
A falsy (empty) payload is "no artifact"; otherwise the data-URL marker
is stripped and the remainder base64-decoded and rasterized, any failure
being wrapped as `ValueError("Failed to decode signature: ...")`.  Unlike
`_decode_comments`, there is no empty-after-strip check before decoding. -/
def decode_signature (signature_data : String) : Except String (Option (List ℕ)) :=
  if signature_data = "" then Except.ok none
  else
    let base64_str := stripBase64DataUrl signature_data
    match b64decode base64_str with
    | Except.error e => Except.error ("Failed to decode signature: " ++ e)
    | Except.ok bytes =>
      match imageOpen bytes with
      | Except.error e => Except.error ("Failed to decode signature: " ++ e)
      | Except.ok img => Except.ok (some img)

/-- `SignatureAgent._decode_comments` (sign_document.py lines 345–368).
Identical to `decode_signature` except for the extra guard: an empty or
whitespace-only payload after marker stripping is "no artifact". -/
def decode_comments (comments_data : String) : Except String (Option (List ℕ)) :=
  if comments_data = "" then Except.ok none
  else
    let base64_str := stripBase64DataUrl comments_data
    if base64_str = "" ∨ pyStrip base64_str = "" then Except.ok none
    else
      match b64decode base64_str with
      | Except.error e => Except.error ("Failed to decode comments: " ++ e)
      | Except.ok bytes =>
        match imageOpen bytes with
        | Except.error e => Except.error ("Failed to decode comments: " ++ e)
        | Except.ok img => Except.ok (some img)

/-! ### Department-list renderer
`SignatureAgent._render_department_list_image` and `_format_arabic_text`
(sign_document.py lines 400–531 and 594–606).  Glyph measurement
(`draw.textbbox`) and the external reshape+bidi composite are parameters. -/

/-- The Arabic-block membership test used by both
`_render_department_list_image.is_arabic` and `_format_arabic_text`:
any character in U+0600–U+06FF. -/
def containsArabic (s : String) : Bool :=
  s.data.any (fun c => '؀' ≤ c ∧ c ≤ 'ۿ')

/-- `SignatureAgent._format_arabic_text`, parametric in the external
`arabic_reshaper.reshape` + `bidi.get_display` composite (`reshapeBidi`);
the source falls back to the unshaped text when that call raises, so any
total function is a faithful instance of the external call. -/
def format_arabic_text (reshapeBidi : String → String) (text : String) : String :=
  if containsArabic text then reshapeBidi text else text

/-- The bullet literal of `_render_department_list_image`.  In the source
file the intended `•` appears as the three characters `â€¢` (the UTF-8
encoding of the bullet read back as Latin-1), and that three-character
string is what the code measures and draws. -/
def bulletGlyph : String := "â€¢"

/-- Python `str.split()` with no argument: split on whitespace runs,
discarding empty pieces.  First argument is the accumulator of the word
being read (reversed). -/
def pySplitWs : List Char → List Char → List String
  | acc, [] => if acc.isEmpty then [] else [String.mk acc.reverse]
  | acc, c :: rest =>
    if c.isWhitespace then
      if acc.isEmpty then pySplitWs [] rest
      else String.mk acc.reverse :: pySplitWs [] rest
    else pySplitWs (c :: acc) rest

/-- The loop body of `wrap_logical_text`: width-based wrapping on logical
words, measuring the shaped candidate at every step (`measure` is the
`draw.textbbox` width/height model, `shape` the shaping function).  A
single word exceeding the budget is emitted as its own overflowing line. -/
def wrap_words (measure : String → ℕ × ℕ) (shape : String → String)
    (maxLineWidth : ℤ) : List String → String → List String
  | [], current => if current = "" then [] else [current]
  | word :: ws, current =>
    let candidate := if current = "" then word else current ++ " " ++ word
    if ((measure (shape candidate)).1 : ℤ) ≤ maxLineWidth then
      wrap_words measure shape maxLineWidth ws candidate
    else if current ≠ "" then
      current :: wrap_words measure shape maxLineWidth ws word
    else
      candidate :: wrap_words measure shape maxLineWidth ws ""

/-- `wrap_logical_text` of `_render_department_list_image`: wraps the
logical (unshaped) text to the pixel budget, returning logical lines. -/
def wrap_logical_text (measure : String → ℕ × ℕ) (shape : String → String)
    (logicalText : String) (maxLineWidth : ℤ) : List String :=
  let words := pySplitWs [] logicalText.data
  if words = [] then [] else wrap_words measure shape maxLineWidth words ""

/-- One entry of the `rendered_lines` list built by
`_render_department_list_image`: the (shaped or bullet-prefixed) text, the
RTL flag and whether this is the first wrapped line of its logical item. -/
structure RenderedLine where
  text : String
  is_ar : Bool
  is_first : Bool
deriving DecidableEq

/-- One `draw.text((x, y), text, ...)` call issued by the renderer. -/
structure DrawOp where
  text : String
  x : ℤ
  y : ℤ
deriving DecidableEq

/-- The `rendered_lines` construction of `_render_department_list_image`
(lines 466–486): each department name is stripped, classified RTL/LTR,
wrapped against the budget (which reserves the bullet allowance for
Arabic items), and each wrapped line is recorded with its shaped text
(Arabic) or bullet/indent prefix (Latin) plus the `is_first` flag. -/
def build_rendered_lines (measure : String → ℕ × ℕ) (shape : String → String)
    (max_width_px padding_px bullet_area_px : ℕ)
    (departments : List String) : List RenderedLine :=
  departments.foldl (fun acc dept0 =>
    let dept := pyStrip dept0
    if dept = "" then acc
    else
      let ar := containsArabic dept
      let maxLineWidth : ℤ :=
        if ar then (max_width_px : ℤ) - (padding_px * 2 : ℕ) - (bullet_area_px : ℕ)
        else (max_width_px : ℤ) - (padding_px * 2 : ℕ)
      let logicalLines := wrap_logical_text measure shape dept maxLineWidth
      acc ++ logicalLines.enum.map (fun p =>
        ⟨if ar then shape p.2
          else if p.1 = 0 then bulletGlyph ++ " " ++ p.2 else "  " ++ p.2,
          ar, p.1 = 0⟩)) []

/-- The drawing loop of `_render_department_list_image` (lines 512–531):
for every rendered line, an RTL line draws the bullet at the right edge
and the text right-aligned before it, an LTR line draws its (already
bullet- or indent-prefixed) text at the left padding; `y` advances by the
line height plus spacing. -/
def draw_department_lines (measure : String → ℕ × ℕ) (img_w : ℤ)
    (padding_px line_spacing_px bullet_w bullet_area_px : ℕ) :
    List RenderedLine → ℤ → List DrawOp
  | [], _ => []
  | line :: rest, y =>
    let wh := measure line.text
    let ops :=
      if line.is_ar then
        let bullet_x := img_w - (padding_px : ℤ) - (bullet_w : ℤ)
        let text_right_pad : ℤ := (padding_px : ℤ) + (bullet_area_px : ℤ)
        let text_x := max (padding_px : ℤ) (img_w - text_right_pad - (wh.1 : ℤ))
        [⟨bulletGlyph, bullet_x, y⟩, ⟨line.text, text_x, y⟩]
      else
        [⟨line.text, (padding_px : ℤ), y⟩]
    ops ++ draw_department_lines measure img_w padding_px line_spacing_px bullet_w
      bullet_area_px rest (y + (wh.2 : ℤ) + (line_spacing_px : ℤ))

/-- `SignatureAgent._render_department_list_image` with the source's
default style parameters passed explicitly (`padding_px = 10`,
`line_spacing_px = 6`; the font size only affects the external `measure`).
Returns the image size and the list of text draw operations, or `none`
for an empty input.  The bullet gap is the literal `8` of the source. -/
def render_department_list_image (measure : String → ℕ × ℕ) (shape : String → String)
    (departments : List String) (max_width_px padding_px line_spacing_px : ℕ) :
    Option (ℤ × ℤ × List DrawOp) :=
  if departments = [] then none
  else
    let bullet_w := (measure bulletGlyph).1
    let bullet_area_px := bullet_w + 8
    let rl := build_rendered_lines measure shape max_width_px padding_px bullet_area_px
      departments
    if rl = [] then none
    else
      let widths := rl.map (fun l => (measure l.text).1)
      let heights := rl.map (fun l => (measure l.text).2)
      let max_text_width : ℤ := (widths.foldl max 0 : ℕ)
      let any_ar := rl.any (fun l => l.is_ar)
      let reserved_px : ℤ := if any_ar then (bullet_area_px : ℤ) else 0
      let text_width : ℤ :=
        min max_text_width ((max_width_px : ℤ) - (padding_px * 2 : ℕ) - reserved_px)
      let total_height : ℤ :=
        ((heights.foldl (· + ·) 0 : ℕ) : ℤ) + (line_spacing_px : ℤ) * ((rl.length : ℤ) - 1)
      let img_w : ℤ := min (max_width_px : ℤ) (text_width + reserved_px + (padding_px * 2 : ℕ))
      let img_h : ℤ := total_height + (padding_px * 2 : ℕ)
      some (img_w, img_h,
        draw_department_lines measure img_w padding_px line_spacing_px bullet_w
          bullet_area_px rl (padding_px : ℤ))

/-- A concrete glyph-measure instance: every character six pixels wide,
every line ten pixels tall.  Used to run the renderer on a concrete
input. -/
def measureSix (s : String) : ℕ × ℕ := (6 * s.length, 10)

/-- A concrete shaping instance: the reshape+bidi composite acting as the
identity (the behavior the source itself falls back to when reshaping
fails); bullet placement does not depend on the shaped glyphs. -/
def shapeId : String → String := format_arabic_text (fun t => t)

/-! ### Pristine backup and version replacement
`SignatureViewSet.create` (documents/api/views.py lines 311–397) composed
with the stamping of the target attachment. -/

/-- Abstract attachment file content.  `Content.upload k` is whatever
bytes the attachment held when uploaded, before any signing;
`Content.stamped c a` is the output of the stamping engine rendering
artifact set `a` onto a file whose content was `c` (the engine always
produces fresh bytes from the content it reads, so stamping is a
constructor). -/
inductive Content where
  | upload : ℕ → Content
  | stamped : Content → ℕ → Content
deriving DecidableEq

/-- Whether the stamp of artifact set `a` occurs anywhere in the content. -/
def containsStamp : Content → ℕ → Bool
  | Content.upload _, _ => false
  | Content.stamped c b, a => (b == a) || containsStamp c a

/-- The per-attachment persistent state read and written by a signing
event: the current file bytes, the pristine backup (`original_file`,
`none` until first set), the version counter, the number of `Signature`
rows currently referencing the attachment, and the `is_signed` flag. -/
structure AttachmentState where
  file : Content
  original_file : Option Content
  version_number : ℕ
  signature_rows : ℕ
  is_signed : Bool
deriving DecidableEq

/-- A freshly uploaded, never-signed attachment: `version_number` starts
at 1, no `Signature` rows, no backup. -/
def freshAttachment (c0 : Content) : AttachmentState :=
  ⟨c0, none, 1, 0, false⟩

/-- One signing event targeting this attachment: the backup / restore /
replacement logic of `SignatureViewSet.create` composed with the stamping
of the target attachment by `SignatureAgent.process_document` /
`_process_single_attachment`:

* re-sign branch (some `Signature` row exists): back up the current file
  if no backup exists yet, restore `file` from the backup, delete all
  `Signature` rows, increment `version_number`; then the new `Signature`
  row is created and the agent stamps the restored file and sets
  `is_signed`;
* first-signature branch: back up the current file if no backup exists,
  create the `Signature` row, stamp the current file, set `is_signed`;
  `version_number` is not touched.

Files are modeled as always present on disk, so the `os.path.exists`
guards of the source hold. -/
def signEvent (artifact : ℕ) (st : AttachmentState) : AttachmentState :=
  if st.signature_rows > 0 then
    let backup := match st.original_file with
      | none => some st.file
      | some o => some o
    let restored := match backup with
      | some o => o
      | none => st.file
    ⟨Content.stamped restored artifact, backup, st.version_number + 1, 1, true⟩
  else
    let backup := match st.original_file with
      | none => some st.file
      | some o => some o
    ⟨Content.stamped st.file artifact, backup, st.version_number, 1, true⟩

/-- A sequence of signing events targeting the attachment, oldest first. -/
def signEvents (artifacts : List ℕ) (st : AttachmentState) : AttachmentState :=
  artifacts.foldl (fun s a => signEvent a s) st

/-! ### Sibling version bump
`SignatureViewSet.create`, views.py lines 373–390. -/

/-- The fields of a sibling attachment row touched by the version bump. -/
structure SiblingAttachment where
  id : ℕ
  file_name : String
  version_number : ℕ
deriving DecidableEq, Inhabited

/-- The sibling version bump of `SignatureViewSet.create`: after the new
`Signature` row is created, if the target attachment's file has an image
extension and its (already re-incremented) `version_number` exceeds 1,
every other attachment of the document whose file name matches the image
regex gets `version_number += 1`; the target itself is excluded by
`.exclude(id=signature_obj.attachment.id)`. -/
def sibling_version_bump (target_id : ℕ) (target_name : String) (target_version : ℕ)
    (attachments : List SiblingAttachment) : List SiblingAttachment :=
  if is_image_file target_name then
    if target_version > 1 then
      attachments.map fun att =>
        if att.id ≠ target_id ∧ iregexImage att.file_name then
          { att with version_number := att.version_number + 1 }
        else att
    else attachments
  else attachments

/-! ### PDF re-encoding
`SignatureAgent._add_signature_to_pdf` (sign_document.py lines 608–782). -/

/-- One PDF page: its media box in points (floats in the source) and an
opaque content stream. -/
structure PdfPage where
  width : ℚ
  height : ℚ
  content : ℕ
deriving DecidableEq

/-- An in-memory raster surface: pixel dimensions plus opaque pixel
data. -/
structure RasterImage where
  width : ℕ
  height : ℕ
  pixels : ℕ
deriving DecidableEq

/-- `Image.resize(..., LANCZOS)` — the pixel dimensions change to the
requested ones; the resampled pixel data stays opaque (none of the claims
inspects raster pixels). -/
def resize_raster (img : RasterImage) (w h : ℕ) : RasterImage := ⟨w, h, img.pixels⟩

/-- `SignatureAgent._add_signature_to_pdf`.  `convert` models
`pdf2image.convert_from_bytes(..., dpi=150)` on the first page (its native
pixel size is arbitrary), `compose` the artifact scaling and pasting onto
the raster (lines 650–746), and `encode` the reportlab canvas of size
`(first_page_width, first_page_height)` plus `PdfReader` round-trip that
turns the stamped raster into a single PDF page content stream.  The
output is the stamped first page at the original point size followed by
the untouched remaining pages; an empty PDF hits `page_sizes[0]` and the
`IndexError` is wrapped by the enclosing `except`. -/
def add_signature_to_pdf (convert : ℚ → ℚ → RasterImage)
    (compose : RasterImage → RasterImage) (encode : RasterImage → ℕ) :
    List PdfPage → Except String (List PdfPage)
  | [] => Except.error "Failed to process PDF: list index out of range"
  | p :: rest =>
    let first_page_img := convert p.width p.height
    let width_px := (pyInt (p.width * 150 / 72)).toNat
    let height_px := (pyInt (p.height * 150 / 72)).toNat
    let sized :=
      if first_page_img.width = width_px ∧ first_page_img.height = height_px then
        first_page_img
      else resize_raster first_page_img width_px height_px
    let stamped := compose sized
    Except.ok (⟨p.width, p.height, encode stamped⟩ :: rest)

/-! ### Signing orchestrator
`SignatureAgent.process_document` and `_process_single_attachment`
(sign_document.py lines 921–989). -/

/-- The attachment fields the orchestrator reads and persists. -/
structure OrchAttachment where
  id : ℕ
  file_name : String
  content : ℕ
  is_signed : Bool
deriving DecidableEq

/-- The document with its status and attachment rows. -/
structure OrchDocument where
  status : String
  attachments : List OrchAttachment
deriving DecidableEq

/-- `SignatureAgent._process_single_attachment`: read the file, stamp it
according to its extension (`stamp_pdf` models `_add_signature_to_pdf`,
`stamp_image` models `_add_signature_to_image`, both of which wrap their
own failures), then persist the new content and `is_signed = True` via
`attachment.save()`.  The fresh `signed_<timestamp>` file name does not
affect any claim and is not modeled. -/
def process_single_attachment (stamp_pdf stamp_image : ℕ → Except String ℕ)
    (att : OrchAttachment) : Except String OrchAttachment :=
  if is_pdf_file att.file_name then
    match stamp_pdf att.content with
    | Except.error e => Except.error e
    | Except.ok c => Except.ok { att with content := c, is_signed := true }
  else if is_image_file att.file_name then
    match stamp_image att.content with
    | Except.error e => Except.error e
    | Except.ok c => Except.ok { att with content := c, is_signed := true }
  else Except.error ("Unsupported file format: " ++ extLower att.file_name)

/-- The image fan-out loop of `process_document`: every image attachment
of the document is processed in order, each persisted immediately; the
first failure aborts the loop, leaving already-processed attachments
saved and the failing and following ones untouched.  Returns the
attachment rows as left on the database plus the pending exception. -/
def process_image_attachments (stamp_pdf stamp_image : ℕ → Except String ℕ) :
    List OrchAttachment → List OrchAttachment × Option String
  | [] => ([], none)
  | att :: rest =>
    if is_image_file att.file_name then
      match process_single_attachment stamp_pdf stamp_image att with
      | Except.error e => (att :: rest, some e)
      | Except.ok att2 =>
        let pr := process_image_attachments stamp_pdf stamp_image rest
        (att2 :: pr.1, pr.2)
    else
      let pr := process_image_attachments stamp_pdf stamp_image rest
      (att :: pr.1, pr.2)

/-- `SignatureAgent.process_document`.  `_decode_signature()` and
`_decode_comments()` run first, *before* the `try` block (sign_document.py
lines 930–941), so a decode `ValueError` escapes with its own
`"Failed to decode signature/comments: ..."` label, unwrapped, and nothing
has been touched; the `"No document attachment found"` guard (also before
the `try`) never fires here because the model gives every attachment a
file.  Inside the `try`: PDF targets process only the target attachment,
image targets fan out over all image attachments of the document; on
success the document status becomes `'signed'`; any exception raised
inside the `try` is wrapped as `"Failed to process document: ..."` and the
status update is skipped.  The stamping parameters receive the decoded
signature and comments surfaces.  The result is the document state as
left behind plus the pending exception. -/
def process_document
    (stamp_pdf stamp_image : Option (List ℕ) → Option (List ℕ) → ℕ → Except String ℕ)
    (signature_data comments_data : String)
    (target : OrchAttachment) (doc : OrchDocument) : OrchDocument × Option String :=
  match decode_signature signature_data with
  | Except.error e => (doc, some e)
  | Except.ok sig =>
    match decode_comments comments_data with
    | Except.error e => (doc, some e)
    | Except.ok comm =>
      if is_pdf_file target.file_name then
        match process_single_attachment (stamp_pdf sig comm) (stamp_image sig comm) target with
        | Except.error e => (doc, some ("Failed to process document: " ++ e))
        | Except.ok t2 =>
          (⟨"signed", doc.attachments.map (fun b => if b.id = target.id then t2 else b)⟩, none)
      else if is_image_file target.file_name then
        match process_image_attachments (stamp_pdf sig comm) (stamp_image sig comm)
            doc.attachments with
        | (atts, some e) => (⟨doc.status, atts⟩, some ("Failed to process document: " ++ e))
        | (atts, none) => (⟨"signed", atts⟩, none)
      else
        (doc, some ("Failed to process document: Unsupported file format: " ++
          extLower target.file_name))

/-- A concrete stamping instance that fails exactly on file content `2`
and otherwise produces fresh content, used to exercise the orchestrator
on a concrete failing pass. -/
def stampFailOnTwo (c : ℕ) : Except String ℕ :=
  if c = 2 then Except.error "Failed to process image: boom" else Except.ok (c + 100)

end ASY

namespace ASY

/-! ## Helper lemmas -/

lemma validate_percentage_ok {x : ℚ} (h0 : 0 ≤ x) (h1 : x ≤ 1) :
    validate_percentage x = Except.ok x := by
  unfold validate_percentage
  rw [if_neg]
  push_neg
  exact ⟨h0, h1⟩

lemma pyInt_eq_floor {q : ℚ} (h : 0 ≤ q) : pyInt q = ⌊q⌋ := if_pos h

lemma pyInt_nonneg {q : ℚ} (h : 0 ≤ q) : 0 ≤ pyInt q := by
  rw [pyInt_eq_floor h]
  exact Int.floor_nonneg.mpr h

lemma calc_pos_padded (Dd Ed : ℕ) (p m : ℚ) (ar ab : Bool)
    (hp : validate_percentage p = Except.ok p) (hm : validate_percentage m = Except.ok m) :
    calculate_percentage_position Dd Ed p (some m) ar ab =
      Except.ok (pyInt (max ((Dd : ℚ) * m)
        (min (if ar || ab then (Dd : ℚ) * p - (Ed : ℚ) else (Dd : ℚ) * p)
          ((Dd : ℚ) - (Ed : ℚ) - (Dd : ℚ) * m)))) := by
  simp only [calculate_percentage_position, hp, hm]

lemma calc_pos_unpadded (Dd Ed : ℕ) (p : ℚ) (ar ab : Bool)
    (hp : validate_percentage p = Except.ok p) :
    calculate_percentage_position Dd Ed p none ar ab =
      Except.ok (if ar || ab then pyInt (max 0 ((Dd : ℚ) * p - (Ed : ℚ)))
        else pyInt (max 0 (min ((Dd : ℚ) * p) ((Dd : ℚ) - (Ed : ℚ))))) := by
  simp only [calculate_percentage_position, hp]
  cases ar <;> cases ab <;> rfl

lemma calc_center_padded (Dd Ed : ℕ) (p m : ℚ)
    (hp : validate_percentage p = Except.ok p) (hm : validate_percentage m = Except.ok m) :
    calculate_percentage_center_position Dd Ed p (some m) =
      Except.ok (pyInt (max ((Dd : ℚ) * m)
        (min ((Dd : ℚ) * p - (Ed : ℚ) / 2) ((Dd : ℚ) - (Ed : ℚ) - (Dd : ℚ) * m)))) := by
  simp only [calculate_percentage_center_position, hp, hm]

lemma calc_center_unpadded (Dd Ed : ℕ) (p : ℚ)
    (hp : validate_percentage p = Except.ok p) :
    calculate_percentage_center_position Dd Ed p none =
      Except.ok (pyInt (max 0 (min ((Dd : ℚ) * p - (Ed : ℚ) / 2) ((Dd : ℚ) - (Ed : ℚ))))) := by
  simp only [calculate_percentage_center_position, hp]

lemma signEvent_fresh (c0 : Content) (a : ℕ) :
    signEvent a (freshAttachment c0) =
      ⟨Content.stamped c0 a, some c0, 1, 1, true⟩ := rfl

lemma signEvent_established (f c0 : Content) (v : ℕ) (a : ℕ) :
    signEvent a ⟨f, some c0, v, 1, true⟩ =
      ⟨Content.stamped c0 a, some c0, v + 1, 1, true⟩ := rfl

lemma signEvents_established (c0 : Content) (artifacts : List ℕ) :
    ∀ (f : Content) (v : ℕ),
      signEvents artifacts ⟨f, some c0, v, 1, true⟩ =
        ⟨artifacts.foldl (fun _ a => Content.stamped c0 a) f, some c0,
          v + artifacts.length, 1, true⟩ := by
  induction artifacts with
  | nil => intro f v; simp [signEvents]
  | cons a rest ih =>
    intro f v
    simp only [signEvents, List.foldl_cons] at *
    rw [signEvent_established, ih]
    simp only [List.length_cons]
    congr 1
    omega

lemma foldl_stamp_getLast (c0 : Content) (a : ℕ) (rest : List ℕ) :
    rest.foldl (fun _ x => Content.stamped c0 x) (Content.stamped c0 a) =
      Content.stamped c0 ((a :: rest).getLast (List.cons_ne_nil a rest)) := by
  induction rest generalizing a with
  | nil => rfl
  | cons b r ih =>
    rw [List.foldl_cons, ih b]
    rw [List.getLast_cons (List.cons_ne_nil b r)]

lemma signEvents_cons (c0 : Content) (x : ℕ) (l : List ℕ) :
    signEvents (x :: l) (freshAttachment c0) =
      ⟨Content.stamped c0 ((x :: l).getLast (List.cons_ne_nil x l)), some c0,
        1 + l.length, 1, true⟩ := by
  show signEvents l (signEvent x (freshAttachment c0)) = _
  rw [signEvent_fresh, signEvents_established, foldl_stamp_getLast]

lemma getD_map_of_lt {α β : Type} [Inhabited α] [Inhabited β] (f : α → β)
    (l : List α) (i : ℕ) (h : i < l.length) :
    (l.map f).getD i default = f (l.getD i default) := by
  induction l generalizing i with
  | nil => simp at h
  | cons a t ih =>
    cases i with
    | zero => rfl
    | succ n =>
      simp only [List.map_cons, List.getD_cons_succ]
      exact ih n (by simpa using h)

/-! ## Claim theorems -/

/-- C1: for every attachment and every sequence of N ≥ 1 signing events run
through the signature-creation operation from a fresh state, the pristine
backup `original_file` is set exactly once — after every non-empty run of
events it still holds the content captured at the first event — and the
file produced by the N-th signing is the N-th artifact stamped directly
onto that pristine content, so it contains no stamp of an earlier signing
that the pristine content itself did not contain. -/
theorem pristine_baseline (c0 : Content) (a : ℕ) (rest : List ℕ) :
    (∀ pre suf, a :: rest = pre ++ suf → pre ≠ [] →
      (signEvents pre (freshAttachment c0)).original_file = some c0) ∧
    (signEvents (a :: rest) (freshAttachment c0)).file =
      Content.stamped c0 ((a :: rest).getLast (List.cons_ne_nil a rest)) ∧
    (∀ b : ℕ, b ≠ (a :: rest).getLast (List.cons_ne_nil a rest) →
      containsStamp c0 b = false →
      containsStamp (signEvents (a :: rest) (freshAttachment c0)).file b = false) := by
  refine ⟨?_, ?_, ?_⟩
  · intro pre suf heq hne
    match pre, hne with
    | p :: pre2, _ =>
      simp only [List.cons_append] at heq
      obtain ⟨hp, -⟩ := List.cons.inj heq
      subst hp
      rw [signEvents_cons]
  · rw [signEvents_cons]
  · intro b hb hc0
    rw [signEvents_cons]
    simp only [containsStamp]
    rw [hc0]
    simp [Ne.symm hb]

/-- C1 witness: two signings with artifacts 5 then 7 from a fresh upload;
the backup equals the upload after the first event, the final file is the
upload stamped only with 7, and stamp 5 is absent from it. -/
theorem pristine_baseline_witness :
    (signEvents [5] (freshAttachment (Content.upload 0))).original_file =
      some (Content.upload 0) ∧
    (signEvents [5, 7] (freshAttachment (Content.upload 0))).file =
      Content.stamped (Content.upload 0) 7 ∧
    containsStamp (signEvents [5, 7] (freshAttachment (Content.upload 0))).file 5 = false := by
  have h := pristine_baseline (Content.upload 0) 5 [7]
  exact ⟨h.1 [5] [7] rfl (by simp), by simpa using h.2.1,
    by simpa using h.2.2 5 (by decide) rfl⟩

/-- C2: starting from a fresh attachment with `version_number = 1`, the
first signing event leaves the version at 1, a signing sequence of one
first signing plus K re-signs ends with version `1 + K`, and every signing
event hitting a state with an existing `Signature` row increments the
version by exactly 1 and leaves exactly the one new `Signature` row. -/
theorem version_monotonic (c0 : Content) (a : ℕ) (resigns : List ℕ) :
    (signEvent a (freshAttachment c0)).version_number = 1 ∧
    (signEvents (a :: resigns) (freshAttachment c0)).version_number = 1 + resigns.length ∧
    (∀ (b : ℕ) (st : AttachmentState), 0 < st.signature_rows →
      (signEvent b st).version_number = st.version_number + 1 ∧
      (signEvent b st).signature_rows = 1) := by
  refine ⟨rfl, ?_, ?_⟩
  · rw [signEvents_cons]
  · intro b st hrows
    unfold signEvent
    rw [if_pos hrows]
    exact ⟨rfl, rfl⟩

/-- C2 witness: three signings (one first, two re-signs) end at version 3;
a re-sign of a state at version 2 with one `Signature` row moves it to 3. -/
theorem version_monotonic_witness :
    (signEvents [5, 7, 9] (freshAttachment (Content.upload 0))).version_number = 1 + 2 ∧
    (signEvent 4 ⟨Content.upload 3, some (Content.upload 3), 2, 1, true⟩).version_number
      = 2 + 1 := by
  have h := version_monotonic (Content.upload 0) 5 [7, 9]
  exact ⟨h.2.1, (h.2.2 4 ⟨Content.upload 3, some (Content.upload 3), 2, 1, true⟩
    (by decide)).1⟩

/-- C3: when the signing target has an image extension and its version is
greater than 1 after its own re-sign increment, the sibling bump
increments the version of every other attachment whose file name matches
the image regex by exactly 1, leaves any row with the target's id
unchanged, and preserves the number of attachments. -/
theorem sibling_bump_exact (target_id : ℕ) (target_name : String) (tv : ℕ)
    (atts : List SiblingAttachment) (i : ℕ) (hi : i < atts.length)
    (himg : is_image_file target_name = true) (hv : 1 < tv) :
    (((atts.getD i default).id ≠ target_id ∧
        iregexImage (atts.getD i default).file_name = true) →
      ((sibling_version_bump target_id target_name tv atts).getD i default).version_number =
        (atts.getD i default).version_number + 1) ∧
    ((atts.getD i default).id = target_id →
      ((sibling_version_bump target_id target_name tv atts).getD i default).version_number =
        (atts.getD i default).version_number) ∧
    (sibling_version_bump target_id target_name tv atts).length = atts.length := by
  unfold sibling_version_bump
  rw [if_pos himg, if_pos hv]
  rw [getD_map_of_lt _ _ _ hi]
  refine ⟨?_, ?_, by simp⟩
  · intro hcase
    rw [if_pos ⟨hcase.1, hcase.2⟩]
  · intro hid
    rw [if_neg]
    intro hcase
    exact hcase.1 hid

/-- C3 witness: three image attachments; re-signing the first (its version
already bumped to 2) bumps the second sibling and leaves the target row
untouched. -/
theorem sibling_bump_exact_witness :
    ((sibling_version_bump 1 "a.png" 2
        [⟨1, "a.png", 2⟩, ⟨2, "b.png", 1⟩, ⟨3, "c.png", 1⟩]).getD 1 default).version_number
      = ([⟨1, "a.png", 2⟩, ⟨2, "b.png", 1⟩, (⟨3, "c.png", 1⟩ : SiblingAttachment)].getD 1
          default).version_number + 1 ∧
    ((sibling_version_bump 1 "a.png" 2
        [⟨1, "a.png", 2⟩, ⟨2, "b.png", 1⟩, ⟨3, "c.png", 1⟩]).getD 0 default).version_number
      = ([⟨1, "a.png", 2⟩, ⟨2, "b.png", 1⟩, (⟨3, "c.png", 1⟩ : SiblingAttachment)].getD 0
          default).version_number := by
  constructor
  · exact (sibling_bump_exact 1 "a.png" 2
      [⟨1, "a.png", 2⟩, ⟨2, "b.png", 1⟩, ⟨3, "c.png", 1⟩] 1 (by decide) (by decide)
      (by decide)).1 ⟨by decide, by decide⟩
  · exact (sibling_bump_exact 1 "a.png" 2
      [⟨1, "a.png", 2⟩, ⟨2, "b.png", 1⟩, ⟨3, "c.png", 1⟩] 0 (by decide) (by decide)
      (by decide)).2.1 rfl

end ASY

namespace ASY

/-- C4 counterexample: at document dimension 10, element dimension 10
(≤ 10), percentage 0 and margin 1/4 ∈ [0, 0.5), the layout calculation
with a supplied margin returns offset 2, which violates both claimed
bounds `m·D ≤ o` (2.5 ≤ 2) and `o ≤ D - E - m·D` (2 ≤ -2.5). -/
theorem layout_clamp_counterexample :
    calculate_percentage_position 10 10 0 (some (1/4)) false false = Except.ok 2 ∧
    ¬ ((1/4 : ℚ) * 10 ≤ ((2 : ℤ) : ℚ) ∧ ((2 : ℤ) : ℚ) ≤ (10 : ℚ) - 10 - (1/4) * 10) := by
  constructor
  · unfold calculate_percentage_position validate_percentage pyInt
    norm_num
  · norm_num

/-- C4 amended: for document dimension D > 0, element dimension E ≤ D,
percentage p ∈ [0, 1] and margin m ∈ [0, 0.5) such that the element plus
both margins fits (`E + 2·m·D ≤ D`), the layout calculation with a
supplied margin returns, under either alignment mode, an offset o with
`⌊m·D⌋ ≤ o` and `o ≤ D - E - m·D` (the lower bound carries a floor
because the result is truncated to an integer). -/
theorem layout_clamp_amended (Dd Ed : ℕ) (p m : ℚ) (ar ab : Bool)
    (hD : 0 < Dd) (hE : Ed ≤ Dd) (hp0 : 0 ≤ p) (hp1 : p ≤ 1)
    (hm0 : 0 ≤ m) (hm1 : m < 1/2) (hfit : (Ed : ℚ) + 2 * m * (Dd : ℚ) ≤ (Dd : ℚ)) :
    ∃ o : ℤ, calculate_percentage_position Dd Ed p (some m) ar ab = Except.ok o ∧
      ⌊m * (Dd : ℚ)⌋ ≤ o ∧ (o : ℚ) ≤ (Dd : ℚ) - (Ed : ℚ) - m * (Dd : ℚ) := by
  have hm1a : m ≤ 1 := by linarith
  have hD0 : (0 : ℚ) ≤ (Dd : ℚ) := Nat.cast_nonneg _
  have key := calc_pos_padded Dd Ed p m ar ab
    (validate_percentage_ok hp0 hp1) (validate_percentage_ok hm0 hm1a)
  set pos : ℚ := if ar || ab then (Dd : ℚ) * p - (Ed : ℚ) else (Dd : ℚ) * p with hposdef
  set q : ℚ := max ((Dd : ℚ) * m) (min pos ((Dd : ℚ) - (Ed : ℚ) - (Dd : ℚ) * m)) with hq
  have hmD : (0 : ℚ) ≤ (Dd : ℚ) * m := mul_nonneg hD0 hm0
  have hq0 : 0 ≤ q := le_trans hmD (le_max_left _ _)
  have hle : (Dd : ℚ) * m ≤ (Dd : ℚ) - (Ed : ℚ) - (Dd : ℚ) * m := by nlinarith [hfit]
  have hqle : q ≤ (Dd : ℚ) - (Ed : ℚ) - (Dd : ℚ) * m := max_le hle (min_le_right _ _)
  refine ⟨pyInt q, key, ?_, ?_⟩
  · rw [pyInt_eq_floor hq0]
    apply Int.floor_le_floor
    rw [mul_comm]
    exact le_max_left _ _
  · rw [pyInt_eq_floor hq0]
    have := (Int.floor_le q).trans hqle
    nlinarith [this]

/-- C4 witness: a well-posed instance (D = 100, E = 50, p = 1/2,
m = 1/10) where the amended bounds hold. -/
theorem layout_clamp_amended_witness :
    ∃ o : ℤ, calculate_percentage_position 100 50 (1/2) (some (1/10)) false false = Except.ok o ∧
      ⌊(1/10 : ℚ) * ((100 : ℕ) : ℚ)⌋ ≤ o ∧
      (o : ℚ) ≤ ((100 : ℕ) : ℚ) - ((50 : ℕ) : ℚ) - (1/10) * ((100 : ℕ) : ℚ) :=
  layout_clamp_amended 100 50 (1/2) (1/10) false false (by norm_num) (by norm_num)
    (by norm_num) (by norm_num) (by norm_num) (by norm_num) (by norm_num)

/-- C5: for document dimension D > 0, element dimension E ≤ D and
percentage p ∈ [0, 1], the layout calculation with no margin returns an
offset in `[0, D - E]` under both from-start and from-end alignment
(in the from-end branch the code only clamps below by 0, but `p ≤ 1`
already keeps the position at or below `D - E`). -/
theorem layout_no_margin_clamp (Dd Ed : ℕ) (p : ℚ) (ar ab : Bool)
    (hD : 0 < Dd) (hE : Ed ≤ Dd) (hp0 : 0 ≤ p) (hp1 : p ≤ 1) :
    ∃ o : ℤ, calculate_percentage_position Dd Ed p none ar ab = Except.ok o ∧
      0 ≤ o ∧ o ≤ (Dd : ℤ) - (Ed : ℤ) := by
  have hD0 : (0 : ℚ) ≤ (Dd : ℚ) := Nat.cast_nonneg _
  have hDE : (0 : ℚ) ≤ (Dd : ℚ) - (Ed : ℚ) := by
    have := (Nat.cast_le (α := ℚ)).mpr hE
    linarith
  have hDp : (Dd : ℚ) * p ≤ (Dd : ℚ) := by nlinarith
  have key := calc_pos_unpadded Dd Ed p ar ab (validate_percentage_ok hp0 hp1)
  have hfloor : ∀ q : ℚ, 0 ≤ q → q ≤ (Dd : ℚ) - (Ed : ℚ) →
      0 ≤ pyInt q ∧ pyInt q ≤ (Dd : ℤ) - (Ed : ℤ) := by
    intro q h0 h1
    refine ⟨pyInt_nonneg h0, ?_⟩
    rw [pyInt_eq_floor h0]
    have hcast : ((Dd : ℚ) - (Ed : ℚ)) = (((Dd : ℤ) - (Ed : ℤ) : ℤ) : ℚ) := by
      push_cast
      ring
    rw [hcast] at h1
    have h2 := Int.floor_le_floor h1
    simpa using h2
  cases har : (ar || ab) with
  | true =>
    rw [har] at key
    simp only [if_true] at key
    refine ⟨_, key, hfloor _ (le_max_left _ _) (max_le hDE (by linarith))⟩
  | false =>
    rw [har] at key
    simp at key
    refine ⟨_, key, hfloor _ (le_max_left _ _) (max_le hDE (min_le_right _ _))⟩

/-- C5 witness: D = 200, E = 80, p = 3/4, from-end alignment. -/
theorem layout_no_margin_clamp_witness :
    ∃ o : ℤ, calculate_percentage_position 200 80 (3/4) none true false = Except.ok o ∧
      0 ≤ o ∧ o ≤ (200 : ℤ) - (80 : ℤ) := by
  have h := layout_no_margin_clamp 200 80 (3/4) true false (by norm_num) (by norm_num)
    (by norm_num) (by norm_num)
  simpa using h

/-- C10: for every document dimension, every element dimension (larger
elements included), percentage p ∈ [0, 1] and valid optional padding in
[0, 1], both layout functions succeed and return a non-negative offset,
whatever the alignment flags. -/
theorem layout_offsets_nonneg (Dd Ed : ℕ) (p : ℚ) (pad : Option ℚ) (ar ab : Bool)
    (hp0 : 0 ≤ p) (hp1 : p ≤ 1) (hpad : ∀ m ∈ pad, 0 ≤ m ∧ m ≤ 1) :
    (∃ o : ℤ, calculate_percentage_position Dd Ed p pad ar ab = Except.ok o ∧ 0 ≤ o) ∧
    (∃ o : ℤ, calculate_percentage_center_position Dd Ed p pad = Except.ok o ∧ 0 ≤ o) := by
  have hvp := validate_percentage_ok hp0 hp1
  have hD0 : (0 : ℚ) ≤ (Dd : ℚ) := Nat.cast_nonneg _
  cases pad with
  | none =>
    constructor
    · have key := calc_pos_unpadded Dd Ed p ar ab hvp
      cases har : (ar || ab) with
      | true =>
        rw [har] at key
        simp only [if_true] at key
        exact ⟨_, key, pyInt_nonneg (le_max_left _ _)⟩
      | false =>
        rw [har] at key
        simp at key
        exact ⟨_, key, pyInt_nonneg (le_max_left _ _)⟩
    · exact ⟨_, calc_center_unpadded Dd Ed p hvp, pyInt_nonneg (le_max_left _ _)⟩
  | some m =>
    obtain ⟨hm0, hm1⟩ := hpad m rfl
    have hvm := validate_percentage_ok hm0 hm1
    have hmD : (0 : ℚ) ≤ (Dd : ℚ) * m := mul_nonneg hD0 hm0
    constructor
    · exact ⟨_, calc_pos_padded Dd Ed p m ar ab hvp hvm,
        pyInt_nonneg (le_trans hmD (le_max_left _ _))⟩
    · exact ⟨_, calc_center_padded Dd Ed p m hvp hvm,
        pyInt_nonneg (le_trans hmD (le_max_left _ _))⟩

/-- C10 witness: an element (120) larger than the document (50), bottom
alignment, padding 1/10 — both offsets still non-negative. -/
theorem layout_offsets_nonneg_witness :
    (∃ o : ℤ, calculate_percentage_position 50 120 (1/3) (some (1/10)) false true
      = Except.ok o ∧ 0 ≤ o) ∧
    (∃ o : ℤ, calculate_percentage_center_position 50 120 (1/3) (some (1/10))
      = Except.ok o ∧ 0 ≤ o) :=
  layout_offsets_nonneg 50 120 (1/3) (some (1/10)) false true (by norm_num) (by norm_num)
    (by rintro m hm; simp at hm; subst hm; norm_num)

end ASY

namespace ASY

/-- C6 (evaluation at the failing input): a department list with the
single Arabic entry `"مم مم"` wrapped to two lines (budget 60 px, glyphs
6 px wide) produces exactly two rendered lines — the second with
`is_first = false` — yet the draw operations contain the bullet glyph on
*both* lines (at y = 10 and at y = 26): the RTL drawing branch ignores
`is_first` and draws the bullet on every wrapped line, contradicting the
claim that only the first wrapped line of an entry carries the bullet. -/
theorem rtl_bullet_every_line :
    render_department_list_image measureSix shapeId ["مم مم"] 60 10 6 =
      some (58, 46,
        [⟨bulletGlyph, 30, 10⟩, ⟨"مم", 10, 10⟩, ⟨bulletGlyph, 30, 26⟩, ⟨"مم", 10, 26⟩]) ∧
    (build_rendered_lines measureSix shapeId 60 10 26 ["مم مم"]).map
        (fun l => l.is_first) = [true, false] := by
  exact ⟨rfl, rfl⟩

/-- C7 counterexample: the signature decoder raises on the empty-data-URL
payload `"data:image/png;base64,"` and on the whitespace-only payload
`"   "` instead of treating them as missing artifacts, while the comments
decoder returns `none` for the same data-URL payload. -/
theorem decoder_empty_payload_counterexample :
    decode_signature "data:image/png;base64," =
      Except.error "Failed to decode signature: cannot identify image file" ∧
    decode_signature "   " =
      Except.error "Failed to decode signature: cannot identify image file" ∧
    decode_comments "data:image/png;base64," = Except.ok none := by
  refine ⟨?_, ?_, ?_⟩ <;> rfl

/-- C7 amended: the *comments* decoder treats every payload that is empty,
whitespace-only, or a data-URL prefix with an empty/whitespace-only base64
part as a missing artifact (`none`, not an error); the *signature* decoder
treats only the empty string as missing and raises a wrapped decode error
on the other blank payload shapes. -/
theorem decoder_blank_amended (s : String)
    (h : pyStrip (stripBase64DataUrl s) = "") :
    decode_comments s = Except.ok none ∧ decode_signature "" = Except.ok none := by
  refine ⟨?_, rfl⟩
  by_cases hs : s = ""
  · subst hs
    rfl
  · simp only [decode_comments]
    rw [if_neg hs, if_pos (Or.inr h)]

/-- C7 witness: a data-URL payload whose base64 part is two spaces. -/
theorem decoder_blank_amended_witness :
    decode_comments "data:image/png;base64,  " = Except.ok none ∧
    decode_signature "" = Except.ok none :=
  decoder_blank_amended "data:image/png;base64,  " rfl

/-- C8: stamping a PDF whose first page has media box (W, H) yields a PDF
whose first page is re-encoded at exactly (W, H) — whatever pixel size the
rasterizer natively produced and whatever the compositor did to the
raster — and whose remaining pages are the source pages 2..n, appended
unmodified in their original order. -/
theorem pdf_roundtrip_page_size (convert : ℚ → ℚ → RasterImage)
    (compose : RasterImage → RasterImage) (encode : RasterImage → ℕ)
    (p : PdfPage) (rest : List PdfPage) :
    ∃ c : ℕ, add_signature_to_pdf convert compose encode (p :: rest) =
      Except.ok (⟨p.width, p.height, c⟩ :: rest) :=
  ⟨_, rfl⟩

/-- Wrapped-error shape of `decode_signature`: every error the signature
decoder raises carries the `"Failed to decode signature: "` label (the
`except` clause of `_decode_signature` wraps every failure). -/
lemma decode_signature_error_wrapped (s e : String)
    (h : decode_signature s = Except.error e) :
    ∃ cause, e = "Failed to decode signature: " ++ cause := by
  simp only [decode_signature] at h
  by_cases hs : s = ""
  · rw [if_pos hs] at h
    exact Except.noConfusion h
  · rw [if_neg hs] at h
    rcases hb : b64decode (stripBase64DataUrl s) with e1 | bytes
    · simp only [hb, Except.error.injEq] at h
      exact ⟨e1, h.symm⟩
    · simp only [hb] at h
      rcases hi : imageOpen bytes with e2 | img
      · simp only [hi, Except.error.injEq] at h
        exact ⟨e2, h.symm⟩
      · simp only [hi] at h
        exact Except.noConfusion h

/-- Wrapped-error shape of `decode_comments`: every error the comments
decoder raises carries the `"Failed to decode comments: "` label. -/
lemma decode_comments_error_wrapped (s e : String)
    (h : decode_comments s = Except.error e) :
    ∃ cause, e = "Failed to decode comments: " ++ cause := by
  simp only [decode_comments] at h
  by_cases hs : s = ""
  · rw [if_pos hs] at h
    exact Except.noConfusion h
  · rw [if_neg hs] at h
    by_cases hblank : stripBase64DataUrl s = "" ∨ pyStrip (stripBase64DataUrl s) = ""
    · rw [if_pos hblank] at h
      exact Except.noConfusion h
    · rw [if_neg hblank] at h
      rcases hb : b64decode (stripBase64DataUrl s) with e1 | bytes
      · simp only [hb, Except.error.injEq] at h
        exact ⟨e1, h.symm⟩
      · simp only [hb] at h
        rcases hi : imageOpen bytes with e2 | img
        · simp only [hi, Except.error.injEq] at h
          exact ⟨e2, h.symm⟩
        · simp only [hi] at h
          exact Except.noConfusion h

/-- C9 counterexample: an image document with two image attachments where
stamping the second fails (the artifact payloads are empty, so both
decoders succeed with no artifact).  The pass is reported failed with the
wrapped stage message and the document status is not set to `'signed'`,
but the first attachment has already been persisted (content replaced,
`is_signed = true`) — partial persistence, contradicting the claim that a
failure leaves no earlier attachment of the pass persisted. -/
theorem orchestrator_partial_persistence :
    process_document (fun _ _ => stampFailOnTwo) (fun _ _ => stampFailOnTwo) "" ""
        ⟨1, "a.png", 1, false⟩
        ⟨"in_review", [⟨1, "a.png", 1, false⟩, ⟨2, "b.png", 2, false⟩]⟩ =
      (⟨"in_review", [⟨1, "a.png", 101, true⟩, ⟨2, "b.png", 2, false⟩]⟩,
        some "Failed to process document: Failed to process image: boom") := rfl

/-- C9 amended: whenever any stage of a signing pass raises, the operation
is reported failed with a stage-identifying message — a decode failure,
raised before the `try` block, escapes with its own
`"Failed to decode signature: ..."` / `"Failed to decode comments: ..."`
label and leaves everything untouched, and every failure inside the `try`
is wrapped as `"Failed to process document: ..."` — and the document
status is left unchanged (never set to `'signed'`); attachments already
processed by the pass remain persisted.  When no stage fails the status
becomes `'signed'`. -/
theorem orchestrator_failure_amended
    (stamp_pdf stamp_image : Option (List ℕ) → Option (List ℕ) → ℕ → Except String ℕ)
    (signature_data comments_data : String)
    (target : OrchAttachment) (doc : OrchDocument) :
    (∀ e, (process_document stamp_pdf stamp_image signature_data comments_data
        target doc).2 = some e →
      (process_document stamp_pdf stamp_image signature_data comments_data
        target doc).1.status = doc.status ∧
      ∃ cause, e = "Failed to decode signature: " ++ cause ∨
        e = "Failed to decode comments: " ++ cause ∨
        e = "Failed to process document: " ++ cause) ∧
    ((process_document stamp_pdf stamp_image signature_data comments_data
        target doc).2 = none →
      (process_document stamp_pdf stamp_image signature_data comments_data
        target doc).1.status = "signed") := by
  rcases hds : decode_signature signature_data with e1 | sig
  · have hred : process_document stamp_pdf stamp_image signature_data comments_data
        target doc = (doc, some e1) := by
      unfold process_document
      rw [hds]
    rw [hred]
    constructor
    · intro e he
      obtain rfl : e1 = e := Option.some.inj he
      obtain ⟨c, hc⟩ := decode_signature_error_wrapped signature_data e1 hds
      exact ⟨rfl, c, Or.inl hc⟩
    · intro he
      simp at he
  · rcases hdc : decode_comments comments_data with e2 | comm
    · have hred : process_document stamp_pdf stamp_image signature_data comments_data
          target doc = (doc, some e2) := by
        unfold process_document
        rw [hds, hdc]
      rw [hred]
      constructor
      · intro e he
        obtain rfl : e2 = e := Option.some.inj he
        obtain ⟨c, hc⟩ := decode_comments_error_wrapped comments_data e2 hdc
        exact ⟨rfl, c, Or.inr (Or.inl hc)⟩
      · intro he
        simp at he
    · unfold process_document
      simp only [hds, hdc]
      constructor
      · intro e he
        revert he
        split
        · split
          · intro he
            obtain rfl : _ = e := Option.some.inj he
            exact ⟨rfl, _, Or.inr (Or.inr rfl)⟩
          · intro he
            simp at he
        · split
          · split
            · intro he
              obtain rfl : _ = e := Option.some.inj he
              exact ⟨rfl, _, Or.inr (Or.inr rfl)⟩
            · intro he
              simp at he
          · intro he
            obtain rfl : _ = e := Option.some.inj he
            exact ⟨rfl, _, Or.inr (Or.inr rfl)⟩
      · intro he
        revert he
        split
        · split
          · intro he
            simp at he
          · intro _
            rfl
        · split
          · split
            · intro he
              simp at he
            · intro _
              rfl
          · intro he
            simp at he

/-- C9 witness: the failing two-attachment pass above is reported failed
with a stage-identifying wrapped message and the status stays
`'in_review'`. -/
theorem orchestrator_failure_amended_witness :
    (process_document (fun _ _ => stampFailOnTwo) (fun _ _ => stampFailOnTwo) "" ""
        ⟨1, "a.png", 1, false⟩
        ⟨"in_review", [⟨1, "a.png", 1, false⟩, ⟨2, "b.png", 2, false⟩]⟩).1.status
      = "in_review" ∧
    ∃ cause, "Failed to process document: Failed to process image: boom" =
        "Failed to decode signature: " ++ cause ∨
      "Failed to process document: Failed to process image: boom" =
        "Failed to decode comments: " ++ cause ∨
      "Failed to process document: Failed to process image: boom" =
        "Failed to process document: " ++ cause :=
  (orchestrator_failure_amended (fun _ _ => stampFailOnTwo) (fun _ _ => stampFailOnTwo)
      "" "" ⟨1, "a.png", 1, false⟩
      ⟨"in_review", [⟨1, "a.png", 1, false⟩, ⟨2, "b.png", 2, false⟩]⟩).1
    "Failed to process document: Failed to process image: boom" rfl

end ASY
